import Mathlib

/-!
# Shallow embedding of the CreeperCraft site view logic

This file embeds the list-filtering / pagination logic of `BansSection.tsx`,
the expand/collapse registries of `FAQSection.tsx` and the staff roster,
the cycling index controllers of `ServerShopSection.tsx`, and the
leaderboard slicing of the ranking section, and proves the documented
properties about them.

JavaScript strings are modelled as `List Char`; JS arrays as `List`;
the numeric values involved are non-negative integers, modelled as `ℕ`
(with `ℤ` used where a property mentions subtraction).
-/

namespace Mighty

/-- JS `Array.prototype.slice(start, end)` restricted to non-negative
arguments, which is the only way the source calls it (`filteredBans.slice(startIndex,
startIndex + itemsPerPage)` and `currentRankings.slice(3, 20)`): the elements at
indices `[start, end)`, clamped to the array bounds. -/
def jsSlice (l : List α) (start stop : ℕ) : List α :=
  (l.drop start).take (stop - start)

/-- JS `String.prototype.includes(needle)`: `needle` occurs as a contiguous
run inside the receiver. -/
def jsIncludes (haystack needle : List Char) : Bool :=
  match haystack with
  | [] => needle.isEmpty
  | _ :: t => needle.isPrefixOf haystack || jsIncludes t needle

/-- JS `String.prototype.toLowerCase()`; every string in the mock data is
ASCII, where `Char.toLower` agrees with the JS conversion. -/
def toLowerStr (s : List Char) : List Char := s.map Char.toLower

/-- Prop: `needle` is a case-insensitive substring of `hay` (the spec's reading
of "contains ... case-insensitively"). -/
def CaseInsensitiveSubstr (needle hay : List Char) : Prop :=
  ∃ u v, toLowerStr hay = u ++ toLowerStr needle ++ v

/-! ## Ban records (`BansSection.tsx`) -/

/-- Source union type `banType: 'temporary' | 'permanent'`. -/
inductive BanType
  | temporary
  | permanent
deriving DecidableEq

/-- Source union type `severity: 'minor' | 'major' | 'severe'`. -/
inductive Severity
  | minor
  | major
  | severe
deriving DecidableEq

/-- Source union type `status: 'active' | 'expired'`. -/
inductive BanStatus
  | active
  | expired
deriving DecidableEq

/-- A `BanRecord`, keeping the fields the filtering / statistics logic reads
(`id`, the avatar URLs and the ban dates are presentation-only and omitted). -/
structure BanRecord where
  playerName : List Char
  bannedBy : List Char
  reason : List Char
  banType : BanType
  severity : Severity
  status : BanStatus
deriving DecidableEq

/-- The ban-type dropdown: `'all' | 'temporary' | 'permanent'`, with `none`
standing for `'all'`. -/
abbrev TypeFilter := Option BanType

/-- The severity dropdown: `'all' | 'minor' | 'major' | 'severe'`, with `none`
standing for `'all'`. -/
abbrev SevFilter := Option Severity

/-- The predicate of `bans.filter(...)` in `BansSection.tsx`:
`matchesSearch && matchesType && matchesSeverity`. -/
def banMatches (searchTerm : List Char) (ft : TypeFilter) (fsev : SevFilter)
    (ban : BanRecord) : Bool :=
  (jsIncludes (toLowerStr ban.playerName) (toLowerStr searchTerm)
      || jsIncludes (toLowerStr ban.reason) (toLowerStr searchTerm)
      || jsIncludes (toLowerStr ban.bannedBy) (toLowerStr searchTerm))
    && (decide (ft = none) || decide (ft = some ban.banType))
    && (decide (fsev = none) || decide (fsev = some ban.severity))

/-- Source: `filteredBans = bans.filter(ban => matchesSearch && matchesType && matchesSeverity)`. -/
def filteredBans (bans : List BanRecord) (searchTerm : List Char)
    (ft : TypeFilter) (fsev : SevFilter) : List BanRecord :=
  bans.filter (banMatches searchTerm ft fsev)

/-- Source: `const itemsPerPage = 5`. -/
def itemsPerPage : ℕ := 5

/-- Source: `const totalPages = Math.ceil(filteredBans.length / itemsPerPage)`:
ceiling division over the non-negative integer length. -/
def totalPages (bans : List BanRecord) (searchTerm : List Char)
    (ft : TypeFilter) (fsev : SevFilter) : ℕ :=
  ((filteredBans bans searchTerm ft fsev).length + itemsPerPage - 1) / itemsPerPage

/-- Source: `const startIndex = (currentPage - 1) * itemsPerPage`. -/
def startIndex (currentPage : ℕ) : ℕ := (currentPage - 1) * itemsPerPage

/-- Source: `const paginatedBans = filteredBans.slice(startIndex, startIndex + itemsPerPage)`. -/
def paginatedBans (bans : List BanRecord) (searchTerm : List Char)
    (ft : TypeFilter) (fsev : SevFilter) (currentPage : ℕ) : List BanRecord :=
  jsSlice (filteredBans bans searchTerm ft fsev)
    (startIndex currentPage) (startIndex currentPage + itemsPerPage)

/-- The spec's §4.1 utility
`filterAndPaginate(records, criteria, pageSize, pageIndex) -> { items, totalPages }`,
the shape shared by the `filteredBans` / `totalPages` / `paginatedBans`
computed values of `BansSection.tsx` with the page size generalised. -/
def filterAndPaginate (records : List α) (pred : α → Bool)
    (pageSize pageIndex : ℕ) : List α × ℕ :=
  let filtered := records.filter pred
  (jsSlice filtered ((pageIndex - 1) * pageSize) ((pageIndex - 1) * pageSize + pageSize),
    (filtered.length + pageSize - 1) / pageSize)

/-! ## FAQ section (`FAQSection.tsx`) -/

/-- An FAQ item, keeping the fields the filtering and the expand/collapse
registry read (`question` / `answer` are display-only and omitted). -/
structure FAQItem where
  id : ℕ
  category : List Char
deriving DecidableEq

/-- Source `toggleItem(id)`: copy the `openItems` set, delete `id` when present,
add it otherwise. -/
def toggleItem (openItems : Finset ℕ) (id : ℕ) : Finset ℕ :=
  if id ∈ openItems then openItems.erase id else insert id openItems

/-- Source: `filteredFAQs = activeCategory === 'all' ? faqData : faqData.filter(item => item.category === activeCategory)`. -/
def filteredFAQs (faqData : List FAQItem) (activeCategory : List Char) : List FAQItem :=
  if activeCategory = "all".toList then faqData
  else faqData.filter (fun item => decide (item.category = activeCategory))

/-! ## Staff roster (unnamed staff component) -/

/-- Source `toggleCard`: `setExpandedCard(expandedCard === memberId ? null : memberId)`,
with `none` standing for `null`. -/
def toggleCard (expandedCard : Option ℕ) (memberId : ℕ) : Option ℕ :=
  if expandedCard = some memberId then none else some memberId

/-! ## Cycling controllers (`ServerShopSection.tsx`) -/

/-- The bundle carousel's next arrow over `n` bundles:
`setActiveSlide(activeSlide < bundles.length - 1 ? activeSlide + 1 : 0)`. -/
def bundlesNextSlide (n i : ℕ) : ℕ :=
  if i < n - 1 then i + 1 else 0

/-- The bundle carousel's previous arrow over `n` bundles:
`setActiveSlide(activeSlide > 0 ? activeSlide - 1 : bundles.length - 1)`. -/
def bundlesPrevSlide (n i : ℕ) : ℕ :=
  if 0 < i then i - 1 else n - 1

/-- The hero text slider's timer tick over `n` texts:
`setCurrentTextIndex(prev => (prev + 1) % sliderTexts.length)`. -/
def textSliderTick (n i : ℕ) : ℕ := (i + 1) % n

/-! ## Leaderboard view (unnamed ranking component) -/

/-- The extended leaderboard skips the podium's top three:
`currentRankings.slice(3, 20)`. -/
def leaderboardView (currentRankings : List α) : List α :=
  jsSlice currentRankings 3 20

/-! ## The mock ban data and the `BansSection` state machine -/

/-- The mock `banRecords` array of `BansSection.tsx` (ids 1–10 in source order;
the omitted fields are the ids, avatar URLs and dates). -/
def banRecords : List BanRecord :=
  [ ⟨"GrieferKing99".toList, "AdminSteve".toList,
      "Griefing spawn area and destroying player builds".toList,
      .temporary, .major, .active⟩,
    ⟨"HackerPro2024".toList, "ModeratorAlex".toList,
      "Using X-ray hacks and fly modifications".toList,
      .permanent, .severe, .active⟩,
    ⟨"ToxicPlayer123".toList, "AdminSteve".toList,
      "Harassment and inappropriate language in chat".toList,
      .temporary, .minor, .active⟩,
    ⟨"DupeExploit".toList, "ModeratorSarah".toList,
      "Exploiting item duplication glitches".toList,
      .temporary, .major, .active⟩,
    ⟨"SpamBot2025".toList, "AutoMod".toList,
      "Automated spam detection - excessive chat flooding".toList,
      .temporary, .minor, .expired⟩,
    ⟨"CheatEngine".toList, "AdminSteve".toList,
      "Multiple hacking violations and ban evasion".toList,
      .permanent, .severe, .active⟩,
    ⟨"BuildDestroyer".toList, "ModeratorAlex".toList,
      "Destroying community builds and monuments".toList,
      .temporary, .major, .active⟩,
    ⟨"RuleBreaker".toList, "ModeratorSarah".toList,
      "Repeated violations of server rules".toList,
      .temporary, .minor, .active⟩,
    ⟨"PvPCheater".toList, "AdminSteve".toList,
      "Using combat hacks and kill aura".toList,
      .temporary, .major, .active⟩,
    ⟨"AltAccount99".toList, "AutoMod".toList,
      "Ban evasion using alternate account".toList,
      .permanent, .severe, .active⟩ ]

/-- The filter / pagination state of the `BansSection` component
(`searchTerm`, `filterType`, `filterSeverity`, `currentPage`). -/
structure BansState where
  searchTerm : List Char
  filterType : TypeFilter
  filterSeverity : SevFilter
  currentPage : ℕ
deriving DecidableEq

/-- Initial state: `useState('')`, `useState('all')`, `useState('all')`, `useState(1)`. -/
def initBansState : BansState := ⟨[], none, none, 1⟩

/-- The user events the `BansSection` UI exposes: typing in the search box,
picking in the two dropdowns, and the pagination buttons. -/
inductive BansEvent
  | setSearch (s : List Char)
  | setType (t : TypeFilter)
  | setSeverity (v : SevFilter)
  | prevPageClick
  | nextPageClick
  | pageNumberClick (p : ℕ)

/-- The `onChange` / `onClick` handlers of `BansSection.tsx`, applied to the
component state (the `bans` list itself stays `banRecords`: `setBans` is never
called). -/
def applyEvent (st : BansState) : BansEvent → BansState
  | .setSearch s => { st with searchTerm := s }
  | .setType t => { st with filterType := t }
  | .setSeverity v => { st with filterSeverity := v }
  | .prevPageClick => { st with currentPage := max (st.currentPage - 1) 1 }
  | .nextPageClick =>
      let tp := totalPages banRecords st.searchTerm st.filterType st.filterSeverity
      { st with currentPage := min (st.currentPage + 1) tp }
  | .pageNumberClick p => { st with currentPage := p }

/-- Whether the control firing the event is rendered and enabled: the search
box and dropdowns always are; the pagination block renders only when
`totalPages > 1`, the Previous / Next buttons are disabled on the first / last
page, and a numbered button exists for each page `1..totalPages`. -/
def eventEnabled (st : BansState) : BansEvent → Prop
  | .setSearch _ => True
  | .setType _ => True
  | .setSeverity _ => True
  | .prevPageClick =>
      1 < totalPages banRecords st.searchTerm st.filterType st.filterSeverity ∧
        st.currentPage ≠ 1
  | .nextPageClick =>
      1 < totalPages banRecords st.searchTerm st.filterType st.filterSeverity ∧
        st.currentPage ≠ totalPages banRecords st.searchTerm st.filterType st.filterSeverity
  | .pageNumberClick p =>
      1 < totalPages banRecords st.searchTerm st.filterType st.filterSeverity ∧
        1 ≤ p ∧ p ≤ totalPages banRecords st.searchTerm st.filterType st.filterSeverity

/-- The states the mounted `BansSection` component can reach through its UI. -/
inductive ReachableBansState : BansState → Prop
  | init : ReachableBansState initBansState
  | step {st : BansState} {e : BansEvent} :
      ReachableBansState st → eventEnabled st e → ReachableBansState (applyEvent st e)

/-! ## Helper lemmas -/

theorem isPrefixOf_eq_true_iff (l₁ l₂ : List Char) :
    l₁.isPrefixOf l₂ = true ↔ ∃ r, l₂ = l₁ ++ r := by
  induction l₁ generalizing l₂ with
  | nil => simp [List.isPrefixOf]
  | cons a t ih =>
    cases l₂ with
    | nil => simp [List.isPrefixOf]
    | cons b s =>
      simp only [List.isPrefixOf, Bool.and_eq_true, beq_iff_eq, ih, List.cons_append,
        List.cons.injEq]
      constructor
      · rintro ⟨hab, r, hr⟩
        exact ⟨r, hab.symm, hr⟩
      · rintro ⟨r, hba, hr⟩
        exact ⟨hba.symm, r, hr⟩

theorem jsIncludes_eq_true_iff (h n : List Char) :
    jsIncludes h n = true ↔ ∃ u v, h = u ++ n ++ v := by
  induction h with
  | nil =>
    simp only [jsIncludes, List.isEmpty_iff]
    constructor
    · rintro rfl
      exact ⟨[], [], rfl⟩
    · rintro ⟨u, v, huv⟩
      rcases List.append_eq_nil.mp (List.append_eq_nil.mp huv.symm).1
        with ⟨-, hn⟩
      exact hn
  | cons c t ih =>
    simp only [jsIncludes, Bool.or_eq_true, isPrefixOf_eq_true_iff, ih]
    constructor
    · rintro (⟨r, hr⟩ | ⟨u, v, huv⟩)
      · exact ⟨[], r, by simpa using hr⟩
      · exact ⟨c :: u, v, by simp [huv]⟩
    · rintro ⟨u, v, huv⟩
      cases u with
      | nil =>
        left
        exact ⟨v, by simpa using huv⟩
      | cons x u' =>
        right
        rcases List.cons.injEq .. ▸ huv with ⟨-, ht⟩
        exact ⟨u', v, by simpa using ht⟩

theorem jsIncludes_nil_needle (h : List Char) : jsIncludes h [] = true := by
  induction h with
  | nil => rfl
  | cons c t ih => simp [jsIncludes, List.isPrefixOf]

/-- The relation `CaseInsensitiveSubstr` is exactly what the source's
`a.toLowerCase().includes(b.toLowerCase())` computes. -/
theorem caseInsensitiveSubstr_iff (needle hay : List Char) :
    CaseInsensitiveSubstr needle hay ↔
      jsIncludes (toLowerStr hay) (toLowerStr needle) = true := by
  rw [jsIncludes_eq_true_iff]
  rfl

/-- Ceiling `Math.ceil(n / 5)` on a non-negative integer `n` agrees with the
rounded-up natural division used in the embedding. -/
theorem ceil_div_five (n : ℕ) : (n + 5 - 1) / 5 = ⌈(n : ℚ) / 5⌉₊ := by
  refine le_antisymm ?_ ?_
  · rcases Nat.eq_zero_or_pos ((n + 5 - 1) / 5) with h0 | hpos
    · omega
    · have h1 : ((n + 5 - 1) / 5 - 1 : ℕ) < ⌈(n : ℚ) / 5⌉₊ := by
        rw [Nat.lt_ceil, lt_div_iff₀ (by norm_num : (0 : ℚ) < 5)]
        exact_mod_cast (by omega : ((n + 5 - 1) / 5 - 1) * 5 < n)
      omega
  · rw [Nat.ceil_le, div_le_iff₀ (by norm_num : (0 : ℚ) < 5)]
    exact_mod_cast (by omega : n ≤ ((n + 5 - 1) / 5) * 5)

/-- Concatenating the `s`-sized chunks of `l` over `t` pages recovers `l`
whenever `t` pages suffice to cover it. -/
theorem flatten_range_take_drop (s : ℕ) :
    ∀ (t : ℕ) (l : List α), l.length ≤ t * s →
      ((List.range t).map (fun k => (l.drop (k * s)).take s)).flatten = l := by
  intro t
  induction t with
  | zero =>
    intro l hl
    have : l = [] := List.eq_nil_of_length_eq_zero (by omega)
    simp [this]
  | succ t ih =>
    intro l hl
    rw [List.range_succ_eq_map, List.map_cons, List.map_map, List.flatten_cons]
    have hg : ((fun k => (l.drop (k * s)).take s) ∘ Nat.succ) =
        fun k => ((l.drop s).drop (k * s)).take s := by
      funext k
      simp only [Function.comp_apply, List.drop_drop]
      rw [Nat.succ_mul, Nat.add_comm]
    rw [hg, ih (l.drop s)
      (by
        rw [List.length_drop]
        have h2 : (t + 1) * s = t * s + s := by rw [Nat.add_mul, Nat.one_mul]
        omega)]
    simp

/-! ## Claim theorems -/

/-- C1: for every ban list, search term, type filter, severity filter and
1-based page `p`, `BansSection`'s pagination yields
`totalPages = ⌈filteredCount / 5⌉` (so `0` on an empty filtered list) and the
page items are the filtered elements at indices `[(p-1)*5, p*5)`, empty when
that range is out of bounds. -/
theorem bans_pagination_correct (bans : List BanRecord) (searchTerm : List Char)
    (ft : TypeFilter) (fsev : SevFilter) (p : ℕ) (_hp : 1 ≤ p) :
    totalPages bans searchTerm ft fsev =
      ⌈((filteredBans bans searchTerm ft fsev).length : ℚ) / 5⌉₊ ∧
    (filteredBans bans searchTerm ft fsev = [] →
      totalPages bans searchTerm ft fsev = 0) ∧
    paginatedBans bans searchTerm ft fsev p =
      ((filteredBans bans searchTerm ft fsev).drop ((p - 1) * 5)).take 5 := by
  refine ⟨?_, ?_, ?_⟩
  · simp only [totalPages, itemsPerPage]
    exact ceil_div_five _
  · intro h
    simp [totalPages, itemsPerPage, h]
  · simp only [paginatedBans, jsSlice, startIndex, itemsPerPage,
      Nat.add_sub_cancel_left]

/-- Witness for C1 at the concrete page `p = 2` of the severity-filtered
mock data. -/
theorem bans_pagination_correct_witness :
    1 ≤ 2 ∧
    (totalPages banRecords [] none (some .severe) =
        ⌈((filteredBans banRecords [] none (some .severe)).length : ℚ) / 5⌉₊ ∧
      (filteredBans banRecords [] none (some .severe) = [] →
        totalPages banRecords [] none (some .severe) = 0) ∧
      paginatedBans banRecords [] none (some .severe) 2 =
        ((filteredBans banRecords [] none (some .severe)).drop ((2 - 1) * 5)).take 5) :=
  ⟨by decide, bans_pagination_correct banRecords [] none (some .severe) 2 (by decide)⟩

/-- C2: concatenating the page slices for pages `1..totalPages` yields exactly
the filtered subsequence, which is a stable (order-preserving, never
re-sorting) sublist of the input. -/
theorem bans_pages_reconstruct (bans : List BanRecord) (searchTerm : List Char)
    (ft : TypeFilter) (fsev : SevFilter) :
    ((List.range (totalPages bans searchTerm ft fsev)).map
        (fun k => paginatedBans bans searchTerm ft fsev (k + 1))).flatten =
      filteredBans bans searchTerm ft fsev ∧
    (filteredBans bans searchTerm ft fsev).Sublist bans := by
  constructor
  · have hpb : (fun k => paginatedBans bans searchTerm ft fsev (k + 1)) =
        fun k => ((filteredBans bans searchTerm ft fsev).drop (k * 5)).take 5 := by
      funext k
      simp [paginatedBans, jsSlice, startIndex, itemsPerPage]
    rw [hpb]
    apply flatten_range_take_drop
    simp only [totalPages, itemsPerPage]
    omega
  · exact List.filter_sublist _

/-- C3: a ban record passes the filter iff the search term is a
case-insensitive substring of its player name, reason or moderator field, the
type filter is `'all'` or equals its ban type, and the severity filter is
`'all'` or equals its severity; instantiated at severity `"severe"` and free
text `"hack"`, the filter keeps exactly the severe records one of whose three
text fields contains `"hack"` case-insensitively. -/
theorem bans_filter_iff (searchTerm : List Char) (ft : TypeFilter)
    (fsev : SevFilter) (ban : BanRecord) (bans : List BanRecord) :
    (banMatches searchTerm ft fsev ban = true ↔
      (CaseInsensitiveSubstr searchTerm ban.playerName ∨
        CaseInsensitiveSubstr searchTerm ban.reason ∨
        CaseInsensitiveSubstr searchTerm ban.bannedBy) ∧
      (ft = none ∨ ft = some ban.banType) ∧
      (fsev = none ∨ fsev = some ban.severity)) ∧
    (ban ∈ filteredBans bans "hack".toList none (some .severe) ↔
      ban ∈ bans ∧ ban.severity = .severe ∧
        (CaseInsensitiveSubstr "hack".toList ban.playerName ∨
          CaseInsensitiveSubstr "hack".toList ban.reason ∨
          CaseInsensitiveSubstr "hack".toList ban.bannedBy)) := by
  have key : ∀ (t : List Char) (f1 : TypeFilter) (f2 : SevFilter) (b : BanRecord),
      banMatches t f1 f2 b = true ↔
        (CaseInsensitiveSubstr t b.playerName ∨
          CaseInsensitiveSubstr t b.reason ∨
          CaseInsensitiveSubstr t b.bannedBy) ∧
        (f1 = none ∨ f1 = some b.banType) ∧
        (f2 = none ∨ f2 = some b.severity) := by
    intro t f1 f2 b
    simp only [banMatches, Bool.and_eq_true, Bool.or_eq_true, decide_eq_true_eq,
      caseInsensitiveSubstr_iff]
    tauto
  refine ⟨key searchTerm ft fsev ban, ?_⟩
  rw [filteredBans, List.mem_filter, key]
  simp only [reduceCtorEq, Option.some.injEq, false_or]
  constructor
  · rintro ⟨hmem, hsub, -, hsev⟩
    exact ⟨hmem, hsev.symm, hsub⟩
  · rintro ⟨hmem, hsev, hsub⟩
    exact ⟨hmem, hsub, Or.inl trivial, hsev.symm⟩

/-- C4 counterexample: the staff roster's `toggleCard` is not an involution:
with card 1 expanded, toggling card 2 twice ends with no card expanded instead
of restoring card 1. -/
theorem toggleCard_involution_cex :
    toggleCard (toggleCard (some 1) 2) 2 = none ∧
      toggleCard (toggleCard (some 1) 2) 2 ≠ some 1 := by
  constructor <;> decide

/-- C4 (amended): the FAQ section's set-based `toggleItem` is an involution
for every prior state and id; the staff section's single-card `toggleCard`
restores the prior state after a double toggle exactly when the previously
expanded card is `none` or the toggled id itself. -/
theorem toggle_twice_restores (s : Finset ℕ) (e : Option ℕ) (id : ℕ) :
    toggleItem (toggleItem s id) id = s ∧
    (toggleCard (toggleCard e id) id = e ↔ (e = none ∨ e = some id)) := by
  constructor
  · by_cases h : id ∈ s
    · rw [show toggleItem s id = s.erase id from if_pos h, toggleItem,
        if_neg (Finset.not_mem_erase id s), Finset.insert_erase h]
    · rw [show toggleItem s id = insert id s from if_neg h, toggleItem,
        if_pos (Finset.mem_insert_self id s), Finset.erase_insert h]
  · rcases e with - | j
    · simp [toggleCard]
    · by_cases h : j = id
      · subst h
        simp [toggleCard]
      · simp [toggleCard, h, Ne.symm h]

/-- C5 counterexample: for 20 ranking entries, the skip-first-3 leaderboard
view has 17 entries, so page 1 at page size 2 holds the entries of original
ranks 4 and 5 as claimed, but `totalPages` is 9, not 10. -/
theorem leaderboard_page_example_cex :
    (filterAndPaginate (leaderboardView (List.range 20)) (fun _ => true) 2 1).1 =
        [(List.range 20).getD 3 0, (List.range 20).getD 4 0] ∧
    (filterAndPaginate (leaderboardView (List.range 20)) (fun _ => true) 2 1).2 = 9 ∧
    (filterAndPaginate (leaderboardView (List.range 20)) (fun _ => true) 2 1).2 ≠ 10 := by
  refine ⟨by decide, by decide, by decide⟩

/-- C5 (amended): applying the filter/paginate utility with page size 2 and
page index 1 to the skip-first-3 view of any 20-entry ranking list returns
the entries of original ranks 4 and 5 and `totalPages = 9`
(`= ⌈17 / 2⌉`, the view having 17 entries). -/
theorem leaderboard_page_example (rankings : List ℕ) (h : rankings.length = 20) :
    (filterAndPaginate (leaderboardView rankings) (fun _ => true) 2 1).1 =
        [rankings.getD 3 0, rankings.getD 4 0] ∧
    (filterAndPaginate (leaderboardView rankings) (fun _ => true) 2 1).2 = 9 := by
  obtain ⟨a, l1, rfl⟩ := List.exists_of_length_succ rankings h
  simp only [List.length_cons, Nat.succ.injEq] at h
  obtain ⟨b, l2, rfl⟩ := List.exists_of_length_succ l1 h
  simp only [List.length_cons, Nat.succ.injEq] at h
  obtain ⟨c, l3, rfl⟩ := List.exists_of_length_succ l2 h
  simp only [List.length_cons, Nat.succ.injEq] at h
  obtain ⟨d, l4, rfl⟩ := List.exists_of_length_succ l3 h
  simp only [List.length_cons, Nat.succ.injEq] at h
  obtain ⟨e, l5, rfl⟩ := List.exists_of_length_succ l4 h
  simp only [List.length_cons, Nat.succ.injEq] at h
  simp [filterAndPaginate, leaderboardView, jsSlice, List.filter_true,
    List.take_take, List.length_take, h]

/-- Witness for C5 (amended) at the concrete ranking list `0, 1, ..., 19`. -/
theorem leaderboard_page_example_witness :
    (List.range 20).length = 20 ∧
    ((filterAndPaginate (leaderboardView (List.range 20)) (fun _ => true) 2 1).1 =
        [(List.range 20).getD 3 0, (List.range 20).getD 4 0] ∧
      (filterAndPaginate (leaderboardView (List.range 20)) (fun _ => true) 2 1).2 = 9) :=
  ⟨by decide, leaderboard_page_example (List.range 20) (by decide)⟩

/-- On indices in range, the carousel's conditional next arrow computes the
same wrap-around successor as the text slider's modulo tick. -/
theorem bundlesNextSlide_eq_mod (n i : ℕ) (hi : i < n) :
    bundlesNextSlide n i = (i + 1) % n := by
  rw [bundlesNextSlide]
  by_cases h : i < n - 1
  · rw [if_pos h, Nat.mod_eq_of_lt (by omega)]
  · rw [if_neg h, show i + 1 = n by omega, Nat.mod_self]

/-- C6: on a non-empty list of `n` items, from any in-range index, the next
arrow and the timer tick move to `(i + 1) % n`, the previous arrow moves to
`(i - 1 + n) % n`, and all three stay inside `[0, n)`. -/
theorem cycling_index_invariant (n i : ℕ) (hn : 0 < n) (hi : i < n) :
    bundlesNextSlide n i = (i + 1) % n ∧
    textSliderTick n i = (i + 1) % n ∧
    (bundlesPrevSlide n i : ℤ) = ((i : ℤ) - 1 + n) % n ∧
    bundlesNextSlide n i < n ∧
    bundlesPrevSlide n i < n ∧
    textSliderTick n i < n := by
  have hnext := bundlesNextSlide_eq_mod n i hi
  have hprev : (bundlesPrevSlide n i : ℤ) = ((i : ℤ) - 1 + n) % n := by
    rw [bundlesPrevSlide]
    by_cases h : 0 < i
    · rw [if_pos h, show (i : ℤ) - 1 + n = (i : ℤ) - 1 + n * 1 by ring,
        Int.add_mul_emod_self_left, Int.emod_eq_of_lt (by omega) (by omega)]
      omega
    · rw [if_neg h, Int.emod_eq_of_lt (by omega) (by omega)]
      omega
  refine ⟨hnext, rfl, hprev, ?_, ?_, Nat.mod_lt _ hn⟩
  · rw [hnext]
    exact Nat.mod_lt _ hn
  · rw [bundlesPrevSlide]
    split <;> omega

/-- Witness for C6 at `n = 4`, `i = 3` (the wrap-around step). -/
theorem cycling_index_invariant_witness :
    0 < 4 ∧ 3 < 4 ∧
    (bundlesNextSlide 4 3 = (3 + 1) % 4 ∧
      textSliderTick 4 3 = (3 + 1) % 4 ∧
      (bundlesPrevSlide 4 3 : ℤ) = ((3 : ℤ) - 1 + 4) % 4 ∧
      bundlesNextSlide 4 3 < 4 ∧
      bundlesPrevSlide 4 3 < 4 ∧
      textSliderTick 4 3 < 4) :=
  ⟨by decide, by decide, cycling_index_invariant 4 3 (by decide) (by decide)⟩

/-- Iterating the text slider's tick `k` times from an in-range index lands
on `(i + k) % n`. -/
theorem textSliderTick_iterate (n : ℕ) :
    ∀ (k i : ℕ), i < n → (textSliderTick n)^[k] i = (i + k) % n := by
  intro k
  induction k with
  | zero =>
    intro i hi
    simp [Nat.mod_eq_of_lt hi]
  | succ k ih =>
    intro i hi
    rw [Function.iterate_succ_apply]
    have ht : textSliderTick n i < n := Nat.mod_lt _ (by omega)
    rw [ih _ ht, textSliderTick, show i + (k + 1) = i + 1 + k by ring,
      Nat.mod_add_mod]

/-- On in-range indices the carousel's next arrow iterates exactly like the
modulo tick. -/
theorem bundlesNextSlide_iterate (n : ℕ) :
    ∀ (k i : ℕ), i < n → (bundlesNextSlide n)^[k] i = (textSliderTick n)^[k] i := by
  intro k
  induction k with
  | zero =>
    intro i _
    rfl
  | succ k ih =>
    intro i hi
    rw [Function.iterate_succ_apply, Function.iterate_succ_apply,
      bundlesNextSlide_eq_mod n i hi]
    exact ih _ (Nat.mod_lt _ (by omega))

/-- C7: from any starting index `i < n`, `n` consecutive "next" transitions
return both cycling controllers to `i`. -/
theorem cycling_next_closure (n i : ℕ) (hi : i < n) :
    (bundlesNextSlide n)^[n] i = i ∧ (textSliderTick n)^[n] i = i := by
  have h2 : (textSliderTick n)^[n] i = i := by
    rw [textSliderTick_iterate n n i hi, Nat.add_mod_right, Nat.mod_eq_of_lt hi]
  exact ⟨(bundlesNextSlide_iterate n n i hi).trans h2, h2⟩

/-- Witness for C7 at `n = 4`, `i = 1`. -/
theorem cycling_next_closure_witness :
    1 < 4 ∧ ((bundlesNextSlide 4)^[4] 1 = 1 ∧ (textSliderTick 4)^[4] 1 = 1) :=
  ⟨by decide, cycling_next_closure 4 1 (by decide)⟩

/-- C8: on non-empty lists, the ban filter with empty search text and both
dropdowns on `'all'` keeps every record, and the FAQ category filter on
`'all'` returns the data unchanged. -/
theorem empty_filter_matches_all (bans : List BanRecord) (faqs : List FAQItem)
    (_hb : bans ≠ []) (_hf : faqs ≠ []) :
    filteredBans bans [] none none = bans ∧
    filteredFAQs faqs "all".toList = faqs := by
  constructor
  · rw [filteredBans, List.filter_eq_self]
    intro b _
    simp [banMatches, toLowerStr, jsIncludes_nil_needle]
  · rw [filteredFAQs, if_pos rfl]

/-- Witness for C8 on the mock ban data and a one-item FAQ list. -/
theorem empty_filter_matches_all_witness :
    banRecords ≠ [] ∧ ([⟨1, "general".toList⟩] : List FAQItem) ≠ [] ∧
    (filteredBans banRecords [] none none = banRecords ∧
      filteredFAQs [⟨1, "general".toList⟩] "all".toList = [⟨1, "general".toList⟩]) :=
  ⟨by decide, by decide,
    empty_filter_matches_all banRecords [⟨1, "general".toList⟩] (by decide) (by decide)⟩

/-- C9: toggling FAQ item `i` never changes whether a different item `j` is
in the open-items set. -/
theorem toggleItem_frame (s : Finset ℕ) (i j : ℕ) (hij : j ≠ i) :
    j ∈ toggleItem s i ↔ j ∈ s := by
  rw [toggleItem]
  split
  · simp [Finset.mem_erase, hij]
  · simp [Finset.mem_insert, hij]

/-- Witness for C9 with item 5 open while item 3 is toggled. -/
theorem toggleItem_frame_witness :
    (5 : ℕ) ≠ 3 ∧ ((5 : ℕ) ∈ toggleItem {5} 3 ↔ (5 : ℕ) ∈ ({5} : Finset ℕ)) :=
  ⟨by decide, toggleItem_frame {5} 3 5 (by decide)⟩

/-- C10: the search / type / severity handlers never touch `currentPage`,
and consequently the UI can reach a state whose `currentPage` exceeds the
recomputed `totalPages`, showing an empty page over a non-empty filtered
list (reached here by paging to page 2 and then selecting severity
`severe`). -/
theorem filters_keep_current_page :
    (∀ (st : BansState) (s : List Char),
      (applyEvent st (.setSearch s)).currentPage = st.currentPage) ∧
    (∀ (st : BansState) (t : TypeFilter),
      (applyEvent st (.setType t)).currentPage = st.currentPage) ∧
    (∀ (st : BansState) (v : SevFilter),
      (applyEvent st (.setSeverity v)).currentPage = st.currentPage) ∧
    ∃ st : BansState, ReachableBansState st ∧
      totalPages banRecords st.searchTerm st.filterType st.filterSeverity <
        st.currentPage ∧
      paginatedBans banRecords st.searchTerm st.filterType st.filterSeverity
        st.currentPage = [] ∧
      filteredBans banRecords st.searchTerm st.filterType st.filterSeverity ≠ [] := by
  refine ⟨fun st s => rfl, fun st t => rfl, fun st v => rfl, ?_⟩
  have h1 : eventEnabled initBansState .nextPageClick := ⟨by decide, by decide⟩
  have h2 : eventEnabled (applyEvent initBansState .nextPageClick)
      (.setSeverity (some .severe)) := trivial
  refine ⟨applyEvent (applyEvent initBansState .nextPageClick)
      (.setSeverity (some .severe)),
    ReachableBansState.step (ReachableBansState.step ReachableBansState.init h1) h2,
    ?_, ?_, ?_⟩
  all_goals
    rw [show applyEvent (applyEvent initBansState .nextPageClick)
        (.setSeverity (some .severe)) = (⟨[], none, some .severe, 2⟩ : BansState)
      from by decide]
  · decide
  · decide
  · decide

end Mighty
